import Mathlib

/-!
# Verification of the flight-analysis itinerary extraction pipeline

A shallow embedding of the core pipeline of `eduardo.py` (repository
`andrewouko/flight-analysis`), together with theorems settling the frozen
claims about its specification.

Modelling conventions:
* XML elements are `Element` values: a tag plus an attribute association
  list (XML attribute keys are unique, and Python exposes them as a dict
  whose iteration order is attribute order).
* The Python module-level reference dictionaries (`carrier_dict`,
  `city_dict`, `airport_dict`, `aircraft_dict` of `auxiliary.py`) are
  threaded explicitly through the parser as a `RefDicts` state.
* `datetime.datetime.now()` is modelled by a clock parameter `t : Nat`
  supplied to the parser; a timestamp is either an attribute string or a
  clock reading (`TimeStamp`).
* Uncaught Python exceptions (`KeyError` from missing `flight` /
  `aircraft` attributes) are modelled with `Except String`; the
  `ValueError` raised by `handle_create_df_row` and caught inside
  `parse_results` is modelled by the same `Except`, consumed at its
  catch site.
* pandas DataFrame rows are structures; `merge(..., how='inner')` on a
  key column is `flatMap` over the left rows of the matching right rows
  (left-row order, then right-table order, exactly pandas' inner-merge
  row order); `groupby(k)` (default `sort=True`) groups rows by key in
  ascending key order, preserving within-group row order.
-/

namespace FlightAnalysis

/-- `FlightType` enum of `models.py` (the 22 service-type letters).
Only the constructor (its `.name`) matters to the pipeline; enum members
are always truthy in Python. -/
inductive FlightType
  | A | B | C | D | E | F | G | H | J | K | L | M
  | O | P | Q | R | S | T | U | V | W | X
  deriving DecidableEq

/-- `QueryType` enum of `eduardo.py`. -/
inductive QueryType
  | ORIGIN
  | DESTINATION
  deriving DecidableEq

/-- A timestamp value: either a string taken from an XML attribute, or a
wall-clock reading `datetime.datetime.now()` at parse time (the clock is
the `Nat` parameter threaded through the parser). -/
inductive TimeStamp
  | str (s : String)
  | clock (t : Nat)
  deriving DecidableEq

/-- One XML element: its tag and its attributes (`child.tag`,
`child.attrib`). Attribute keys are unique in well-formed XML. -/
structure Element where
  tag : String
  attrib : List (String × String)
  deriving DecidableEq

/-- `carrier_dict` of `auxiliary.py`: fixed keys, each a list of values. -/
structure CarrierDict where
  code : List String
  name : List String
  shortName : List String
  deriving DecidableEq

/-- `city_dict` of `auxiliary.py`. -/
structure CityDict where
  code : List String
  country : List String
  name : List String
  deriving DecidableEq

/-- `airport_dict` of `auxiliary.py`. -/
structure AirportDict where
  city : List String
  code : List String
  latitude : List String
  longitude : List String
  name : List String
  deriving DecidableEq

/-- `aircraft_dict` of `auxiliary.py`. -/
structure AircraftDict where
  code : List String
  name : List String
  width : List String
  deriving DecidableEq

/-- The four module-level reference accumulators (the `dictionaries`
mapping of `eduardo.py`), threaded as explicit state. -/
structure RefDicts where
  carrier : CarrierDict
  city : CityDict
  airport : AirportDict
  aircraft : AircraftDict
  deriving DecidableEq

/-- The accumulators as created at startup: every key maps to `[]`. -/
def emptyRefDicts : RefDicts :=
  { carrier := ⟨[], [], []⟩
    city := ⟨[], [], []⟩
    airport := ⟨[], [], [], [], []⟩
    aircraft := ⟨[], [], []⟩ }

/-- `append_to_dict_lists` specialised to `carrier_dict`: for each key of
the row dict (in attribute order), if the key is one of the target's keys,
append its value to that key's list. -/
def CarrierDict.appendRow (d : CarrierDict) (row : List (String × String)) : CarrierDict :=
  row.foldl (fun d kv =>
    if kv.1 = "code" then { d with code := d.code ++ [kv.2] }
    else if kv.1 = "name" then { d with name := d.name ++ [kv.2] }
    else if kv.1 = "shortName" then { d with shortName := d.shortName ++ [kv.2] }
    else d) d

/-- `append_to_dict_lists` specialised to `city_dict`. -/
def CityDict.appendRow (d : CityDict) (row : List (String × String)) : CityDict :=
  row.foldl (fun d kv =>
    if kv.1 = "code" then { d with code := d.code ++ [kv.2] }
    else if kv.1 = "country" then { d with country := d.country ++ [kv.2] }
    else if kv.1 = "name" then { d with name := d.name ++ [kv.2] }
    else d) d

/-- `append_to_dict_lists` specialised to `airport_dict`. -/
def AirportDict.appendRow (d : AirportDict) (row : List (String × String)) : AirportDict :=
  row.foldl (fun d kv =>
    if kv.1 = "city" then { d with city := d.city ++ [kv.2] }
    else if kv.1 = "code" then { d with code := d.code ++ [kv.2] }
    else if kv.1 = "latitude" then { d with latitude := d.latitude ++ [kv.2] }
    else if kv.1 = "longitude" then { d with longitude := d.longitude ++ [kv.2] }
    else if kv.1 = "name" then { d with name := d.name ++ [kv.2] }
    else d) d

/-- `append_to_dict_lists` specialised to `aircraft_dict`. -/
def AircraftDict.appendRow (d : AircraftDict) (row : List (String × String)) : AircraftDict :=
  row.foldl (fun d kv =>
    if kv.1 = "code" then { d with code := d.code ++ [kv.2] }
    else if kv.1 = "name" then { d with name := d.name ++ [kv.2] }
    else if kv.1 = "width" then { d with width := d.width ++ [kv.2] }
    else d) d

/-- `process_dict_updates` of `eduardo.py`: if the element's tag names one
of the four reference dictionaries, append its attributes to it. -/
def process_dict_updates (child : Element) (d : RefDicts) : RefDicts :=
  if child.tag = "carrier" then { d with carrier := d.carrier.appendRow child.attrib }
  else if child.tag = "city" then { d with city := d.city.appendRow child.attrib }
  else if child.tag = "airport" then { d with airport := d.airport.appendRow child.attrib }
  else if child.tag = "aircraft" then { d with aircraft := d.aircraft.appendRow child.attrib }
  else d

/-- The `FlightDetails` dataclass of `eduardo.py`. Fields initialised to
`None` in `parse_results` are `Option`-typed; `flight_type`, `s_id`,
`query_type` and `batch_num` are always set at construction. -/
structure FlightDetails where
  flight_type : FlightType
  s_id : Nat
  f_id : Option String
  carrier : Option String
  origin : Option String
  destination : Option String
  depart_dt : Option TimeStamp
  arrive_dt : Option TimeStamp
  aircraft : Option String
  width : Option String
  query_type : QueryType
  batch_num : Nat
  deriving DecidableEq

/-- Python truthiness of an optional string field: `None` and `''` are
falsy, any other string is truthy. -/
def truthyStr : Option String → Bool
  | none => false
  | some s => !(s = "")

/-- `update_flight_info`: `f_id = f"{attrib['carrier']}{attrib['number']}"`,
`carrier = attrib['carrier']`; a missing attribute raises `KeyError`
before any field is assigned. -/
def update_flight_info (child : Element) (st : FlightDetails) :
    Except String FlightDetails :=
  match child.attrib.lookup "carrier", child.attrib.lookup "number" with
  | some c, some n => .ok { st with f_id := some (c ++ n), carrier := some c }
  | _, _ => .error "KeyError"

/-- `update_leg_info`: assign origin, destination, departure, arrival from
the attributes; on any `KeyError` the handler overwrites origin and
destination with `''` and both timestamps with `datetime.now()` (clock
`t`), so the net effect is all-or-fallback. -/
def update_leg_info (t : Nat) (child : Element) (st : FlightDetails) : FlightDetails :=
  match child.attrib.lookup "origin", child.attrib.lookup "destination",
      child.attrib.lookup "departure", child.attrib.lookup "arrival" with
  | some o, some d, some dep, some arr =>
      { st with
        origin := some o
        destination := some d
        depart_dt := some (.str dep)
        arrive_dt := some (.str arr) }
  | _, _, _, _ =>
      { st with
        origin := some ""
        destination := some ""
        depart_dt := some (.clock t)
        arrive_dt := some (.clock t) }

/-- `update_aircraft_info`: `aircraft = attrib['name']`,
`width = attrib['width']`; a missing attribute raises `KeyError` (which
`parse_results` does not catch, so partial assignment is unobservable). -/
def update_aircraft_info (child : Element) (st : FlightDetails) :
    Except String FlightDetails :=
  match child.attrib.lookup "name", child.attrib.lookup "width" with
  | some n, some w => .ok { st with aircraft := some n, width := some w }
  | _, _ => .error "KeyError"

/-- `update_flight_details`: dispatch on the element tag; tags outside the
handler table leave the state unchanged. -/
def update_flight_details (t : Nat) (child : Element) (st : FlightDetails) :
    Except String FlightDetails :=
  if child.tag = "flight" then update_flight_info child st
  else if child.tag = "leg" then .ok (update_leg_info t child st)
  else if child.tag = "aircraft" then update_aircraft_info child st
  else .ok st

/-- One row of the parser's output DataFrame (`create_flight_row`'s
columns, in order). The DataFrame stores `state.flight_type.name` and
`state.query_type.name`; the enum-to-name maps are injective, so the enum
values are kept. `index` is the DataFrame index (the `row` argument). -/
structure LegRow where
  flight_type : FlightType
  origin : Option String
  destination : Option String
  f_id : Option String
  carrier : Option String
  aircraft : Option String
  width : Option String
  s_id : Nat
  depart_dt : Option TimeStamp
  arrive_dt : Option TimeStamp
  query_type : QueryType
  batch_num : Nat
  index : Nat
  deriving DecidableEq

/-- `create_flight_row`: a one-row DataFrame from the current state. -/
def create_flight_row (st : FlightDetails) (row : Nat) : LegRow :=
  { flight_type := st.flight_type
    origin := st.origin
    destination := st.destination
    f_id := st.f_id
    carrier := st.carrier
    aircraft := st.aircraft
    width := st.width
    s_id := st.s_id
    depart_dt := st.depart_dt
    arrive_dt := st.arrive_dt
    query_type := st.query_type
    batch_num := st.batch_num
    index := row }

/-- `validate_flight_details`: Python truthiness of the six required
fields `{flight_type, origin, destination, f_id, carrier, s_id}`.
`flight_type` is an enum member, always truthy; `s_id` is an `int`,
truthy iff nonzero. -/
def validate_flight_details (st : FlightDetails) : Bool :=
  truthyStr st.origin && truthyStr st.destination && truthyStr st.f_id &&
    truthyStr st.carrier && !(st.s_id = 0)

/-- `handle_create_df_row`: on an `aircraft` element, validate and either
produce the row or raise `ValueError`; on any other tag produce nothing. -/
def handle_create_df_row (child : Element) (st : FlightDetails) (row : Nat) :
    Except String (Option LegRow) :=
  if child.tag = "aircraft" then
    if validate_flight_details st then .ok (some (create_flight_row st row))
    else .error "Flight details are not valid"
  else .ok none

/-- The loop state of `parse_results`: output rows `dfs`, solution counter
`s_id`, row counter `row`, the `started_yet` flag, the in-progress
accumulator `state`, and the (Python-global) reference dictionaries. -/
structure ParseState where
  dfs : List LegRow
  s_id : Nat
  row : Nat
  started_yet : Bool
  state : Option FlightDetails
  dicts : RefDicts
  deriving DecidableEq

/-- The body of the `for child in results_tree.iter('*')` loop of
`parse_results`, for one element. `KeyError` from
`update_flight_details` propagates (uncaught); the `ValueError` from
`handle_create_df_row` is caught and the row skipped. -/
def parseStep (ft : FlightType) (qt : QueryType) (bn : Nat) (t : Nat)
    (ps : ParseState) (child : Element) : Except String ParseState :=
  let ps1 : ParseState := { ps with dicts := process_dict_updates child ps.dicts }
  let started := ps1.started_yet || (child.tag = "itineraryFullDetail")
  if started = false then .ok ps1
  else
    let ps2 : ParseState :=
      if child.tag = "solution" then
        { ps1 with
          started_yet := started
          s_id := ps1.s_id + 1
          state := some
            { flight_type := ft
              s_id := ps1.s_id + 1
              f_id := none
              carrier := none
              origin := none
              destination := none
              depart_dt := none
              arrive_dt := none
              aircraft := none
              width := none
              query_type := qt
              batch_num := bn } }
      else { ps1 with started_yet := started }
    match ps2.state with
    | none => .ok ps2
    | some st =>
      match update_flight_details t child st with
      | .error e => .error e
      | .ok st' =>
        match handle_create_df_row child st' ps2.row with
        | .ok (some df) =>
            .ok { ps2 with state := some st', dfs := ps2.dfs ++ [df], row := ps2.row + 1 }
        | .ok none => .ok { ps2 with state := some st' }
        | .error _ => .ok { ps2 with state := some st' }

/-- `parse_results` of `eduardo.py`: fold the loop body over the document's
elements in document order, starting from empty counters and the given
reference dictionaries, returning `(dfs, row, s_id)` together with the
final reference dictionaries (Python mutates them globally). -/
def parse_results (t : Nat) (doc : List Element) (ft : FlightType)
    (qt : QueryType) (bn : Nat) (dicts0 : RefDicts) :
    Except String (List LegRow × Nat × Nat × RefDicts) :=
  (doc.foldlM (parseStep ft qt bn t)
      { dfs := []
        s_id := 0
        row := 0
        started_yet := false
        state := none
        dicts := dicts0 }).map
    (fun ps => (ps.dfs, ps.row, ps.s_id, ps.dicts))

/-! ## Batch planner (`generate_xml_query_batch`) -/

/-- The `batch_list` helper of `generate_xml_query_batch`:
`[items[i:i+size] for i in range(0, len(items), size)]`.
(Python raises `ValueError` on `size = 0`; the caller always passes a
positive size, and that branch is modelled as no output.) -/
def batch_list {α : Type} (items : List α) (size : Nat) : List (List α) :=
  if items.isEmpty then []
  else if size = 0 then []
  else items.take size :: batch_list (items.drop size) size
termination_by items.length
decreasing_by
  rename_i h1 h2
  simp only [List.length_drop]
  have hlen : 0 < items.length := by
    cases items with
    | nil => simp [List.isEmpty] at h1
    | cons a l => simp
  exact Nat.sub_lt hlen (Nat.pos_of_ne_zero h2)

/-- One generated query, abstracting the fixed XML header
(`create_base_xml` emits a constant structure): the tag names and code
lists of the primary (batched) and secondary (never batched) sides, in
the order they are appended to the `slice` element. -/
structure QueryPayload where
  primary_element : String
  secondary_element : String
  primary : List String
  secondary : List String
  deriving DecidableEq

/-- `generate_xml_query_batch` over the three IATA code lists fetched from
the Excel data (`origins`, `destinations`, `origin_and_destination`):
returns the list of `(query, batch_number)` pairs. -/
def generate_xml_query_batch (query_type : QueryType)
    (origins_iata_codes destinations_iata_codes origin_and_destination_iata_codes : List String)
    (enable_batching : Bool) (batch_size : Nat) : List (QueryPayload × Nat) :=
  let cfg : String × String × List String × List String :=
    match query_type with
    | .ORIGIN =>
        ("origin", "destination",
         origin_and_destination_iata_codes ++ origins_iata_codes,
         destinations_iata_codes)
    | .DESTINATION =>
        ("destination", "origin",
         origin_and_destination_iata_codes ++ destinations_iata_codes,
         origins_iata_codes)
  let primary_element := cfg.1
  let secondary_element := cfg.2.1
  let primary_codes := cfg.2.2.1
  let secondary_codes := cfg.2.2.2
  if enable_batching = false then
    [(⟨primary_element, secondary_element, primary_codes, secondary_codes⟩, 1)]
  else
    (List.enumFrom 1 (batch_list primary_codes batch_size)).map
      (fun p => (⟨primary_element, secondary_element, p.2, secondary_codes⟩, p.1))

/-! ## Cleaning (`clean_raw_flight_data`) -/

/-- `clean_raw_flight_data`, keeping only the filter semantics
(`df = df[df['Origin'] != '']`): rows whose `Origin` equals `''` are
removed; any other value (including `None`) is kept, since in Python
`None != ''` is `True`. The function's other work is logging. -/
def clean_raw_flight_data (df : List LegRow) : List LegRow :=
  df.filter (fun r => decide (r.origin ≠ some ""))

/-! ## Enrichment (`enrich_flight_data`) -/

/-- One row of the airport reference table restricted to
`airport_column_keys = ['code', 'name', 'country', 'latitude', 'longitude']`
(the columns selected for both airport joins; the table's `city` column
is not used by the joins). Attribute-sourced values are strings. -/
structure AirportRef where
  code : String
  name : String
  country : String
  latitude : String
  longitude : String
  deriving DecidableEq

/-- One row of the carrier reference table restricted to
`['code', 'name']` (the columns selected for the carrier join). -/
structure CarrierRef where
  code : String
  name : String
  deriving DecidableEq

/-- A leg row after the origin-airport inner join. -/
structure LegRowO where
  leg : LegRow
  origin_airport_name : String
  origin_country : String
  origin_latitude : String
  origin_longitude : String
  deriving DecidableEq

/-- A leg row after the origin- and destination-airport inner joins. -/
structure LegRowOD where
  legO : LegRowO
  destination_airport_name : String
  destination_country : String
  destination_latitude : String
  destination_longitude : String
  deriving DecidableEq

/-- A leg row after all three enrichment inner joins. -/
structure LegRowODC where
  legOD : LegRowOD
  airline_name : String
  deriving DecidableEq

/-- The first enrichment join of `enrich_flight_data`:
`flight_data.merge(airport[...], how='inner', on='Origin')`. A pandas
inner merge emits, for each left row in order, one combined row per
matching right row in right-table order; left rows without a match are
dropped. -/
def merge_origin_airport (flight_data : List LegRow) (airport : List AirportRef) :
    List LegRowO :=
  flight_data.flatMap (fun r =>
    (airport.filter (fun a => decide (r.origin = some a.code))).map (fun a =>
      { leg := r
        origin_airport_name := a.name
        origin_country := a.country
        origin_latitude := a.latitude
        origin_longitude := a.longitude }))

/-- The second enrichment join: inner merge on `Destination`. -/
def merge_destination_airport (results : List LegRowO) (airport : List AirportRef) :
    List LegRowOD :=
  results.flatMap (fun r =>
    (airport.filter (fun a => decide (r.leg.destination = some a.code))).map (fun a =>
      { legO := r
        destination_airport_name := a.name
        destination_country := a.country
        destination_latitude := a.latitude
        destination_longitude := a.longitude }))

/-- The third enrichment join: inner merge on `Airline Code` against the
carrier reference table. -/
def merge_carrier (results : List LegRowOD) (carrier : List CarrierRef) :
    List LegRowODC :=
  results.flatMap (fun r =>
    (carrier.filter (fun c => decide (r.legO.leg.carrier = some c.code))).map (fun c =>
      { legOD := r, airline_name := c.name }))

/-- The join pipeline of `enrich_flight_data` (the subsequent datetime
parsing and `(Solution ID, Departure Time)` sort change no row content
relevant to the joins and preserve the row count). -/
def enrich_joins (flight_data : List LegRow) (airport : List AirportRef)
    (carrier : List CarrierRef) : List LegRowODC :=
  merge_carrier (merge_destination_airport
    (merge_origin_airport flight_data airport) airport) carrier

/-! ## Itinerary fold (`transform_flight_structure`) -/

/-- One enriched leg row as seen by `transform_flight_structure`: the
columns consumed by the `groupby('Solution ID').agg` dictionary.
`departure`/`arrival` are the parsed datetimes (modelled as epoch
seconds); all attribute-sourced columns are strings. The `Query Type` /
`Batch Number` columns are not aggregated and hence omitted. -/
structure EnrichedRow where
  solution_id : Nat
  flight_type : String
  flight_num : String
  origin : String
  origin_airport_name : String
  origin_country : String
  origin_latitude : String
  origin_longitude : String
  destination : String
  destination_airport_name : String
  destination_country : String
  destination_latitude : String
  destination_longitude : String
  airline_code : String
  airline_name : String
  aircraft : String
  width : String
  departure : Int
  arrival : Int
  deriving DecidableEq

/-- One row of the aggregated frame, named after the renamed columns of
`transform_flight_structure`. `origin_country` / `destination_country`
(`Origin Country` / `Destination Country`) are attached by the country
merges and initialised empty beforehand. -/
structure AggRow where
  flight_type : String
  flights : List String
  num_stops : Nat
  origin_iata : String
  origin_airport_name : String
  origin_iso : String
  origin_latitude : String
  origin_longitude : String
  via_iata : String
  destination_iata : String
  via_airport_name : String
  destination_airport_name : String
  via_iso : String
  destination_iso : String
  via_latitude : String
  destination_latitude : String
  via_longitude : String
  destination_longitude : String
  airline_codes : String
  airline_names : String
  aircrafts : String
  widths : String
  departure_dt : Int
  arrival_dt : Int
  origin_country : String
  destination_country : String
  deriving DecidableEq

/-- A country row (`code`, `name`), from the externally supplied
countries table. -/
structure CountryRow where
  code : String
  name : String
  deriving DecidableEq

/-- `groupby('Solution ID')` with pandas' default `sort=True`: one group
per distinct key, groups in ascending key order, each group keeping the
frame's row order. -/
def groupby_solution (rows : List EnrichedRow) : List (List EnrichedRow) :=
  (((rows.map (fun r => r.solution_id)).dedup).insertionSort (· ≤ ·)).map
    (fun k => rows.filter (fun r => decide (r.solution_id = k)))

/-- The `.agg` dictionary applied to one solution group: `'first'` /
`'last'` take the group's first/last row, `'count'` its size, list and
`'|'.join` aggregations collect the column over the whole group.
`Destination`-derived columns appear as `['first', 'last']` pairs, the
`first` being the via candidate. Empty groups never arise. -/
def agg_solution_group : List EnrichedRow → Option AggRow
  | [] => none
  | first :: rest =>
    let g := first :: rest
    let last := g.getLast (List.cons_ne_nil first rest)
    some
      { flight_type := first.flight_type
        flights := g.map (fun r => r.flight_num)
        num_stops := g.length
        origin_iata := first.origin
        origin_airport_name := first.origin_airport_name
        origin_iso := first.origin_country
        origin_latitude := first.origin_latitude
        origin_longitude := first.origin_longitude
        via_iata := first.destination
        destination_iata := last.destination
        via_airport_name := first.destination_airport_name
        destination_airport_name := last.destination_airport_name
        via_iso := first.destination_country
        destination_iso := last.destination_country
        via_latitude := first.destination_latitude
        destination_latitude := last.destination_latitude
        via_longitude := first.destination_longitude
        destination_longitude := last.destination_longitude
        airline_codes := String.intercalate "|" (g.map (fun r => r.airline_code))
        airline_names := String.intercalate "|" (g.map (fun r => r.airline_name))
        aircrafts := String.intercalate "|" (g.map (fun r => r.aircraft))
        widths := String.intercalate "|" (g.map (fun r => r.width))
        departure_dt := first.departure
        arrival_dt := last.arrival
        origin_country := ""
        destination_country := "" }

/-- The inner merge attaching `Origin Country` display names from the
countries table, on `Origin ISO Country Code`. -/
def merge_origin_country (rows : List AggRow) (countries : List CountryRow) :
    List AggRow :=
  rows.flatMap (fun r =>
    (countries.filter (fun c => decide (c.code = r.origin_iso))).map (fun c =>
      { r with origin_country := c.name }))

/-- The inner merge attaching `Destination Country` display names, on
`Destination ISO Country Code`. -/
def merge_destination_country (rows : List AggRow) (countries : List CountryRow) :
    List AggRow :=
  rows.flatMap (fun r =>
    (countries.filter (fun c => decide (c.code = r.destination_iso))).map (fun c =>
      { r with destination_country := c.name }))

/-- One output row of `transform_flight_structure`: `Via IATA` has been
nulled when equal to `Destination IATA`, and `Flights` pipe-joined. -/
structure ItineraryRow where
  flight_type : String
  flights : String
  num_stops : Nat
  origin_iata : String
  origin_airport_name : String
  origin_iso : String
  origin_latitude : String
  origin_longitude : String
  via_iata : Option String
  destination_iata : String
  via_airport_name : String
  destination_airport_name : String
  via_iso : String
  destination_iso : String
  via_latitude : String
  destination_latitude : String
  via_longitude : String
  destination_longitude : String
  airline_codes : String
  airline_names : String
  aircrafts : String
  widths : String
  departure_dt : Int
  arrival_dt : Int
  origin_country : String
  destination_country : String
  deriving DecidableEq

/-- The two elementwise rewrites ending `transform_flight_structure`:
`Via IATA = via if via != dest else None`, and
`Flights = '|'.join(flights)`. -/
def fix_via_and_flights (r : AggRow) : ItineraryRow :=
  { flight_type := r.flight_type
    flights := String.intercalate "|" r.flights
    num_stops := r.num_stops
    origin_iata := r.origin_iata
    origin_airport_name := r.origin_airport_name
    origin_iso := r.origin_iso
    origin_latitude := r.origin_latitude
    origin_longitude := r.origin_longitude
    via_iata := if r.via_iata = r.destination_iata then none else some r.via_iata
    destination_iata := r.destination_iata
    via_airport_name := r.via_airport_name
    destination_airport_name := r.destination_airport_name
    via_iso := r.via_iso
    destination_iso := r.destination_iso
    via_latitude := r.via_latitude
    destination_latitude := r.destination_latitude
    via_longitude := r.via_longitude
    destination_longitude := r.destination_longitude
    airline_codes := r.airline_codes
    airline_names := r.airline_names
    aircrafts := r.aircrafts
    widths := r.widths
    departure_dt := r.departure_dt
    arrival_dt := r.arrival_dt
    origin_country := r.origin_country
    destination_country := r.destination_country }

/-- `transform_flight_structure`: group by solution id, aggregate, attach
country display names (two inner merges), then null the via code on
direct flights and pipe-join the flight list. -/
def transform_flight_structure (rows : List EnrichedRow)
    (countries : List CountryRow) : List ItineraryRow :=
  let grouped := (groupby_solution rows).filterMap agg_solution_group
  let merged :=
    merge_destination_country (merge_origin_country grouped countries) countries
  merged.map fix_via_and_flights

/-! ## Metrics (`calculate_flight_metrics`) -/

/-- Python `round` ties-to-even on an exact rational value (binary
floating-point representation error is out of scope of this model). -/
def round_half_even (q : ℚ) : ℤ :=
  if Int.fract q = 1 / 2 then (if 2 ∣ ⌊q⌋ then ⌊q⌋ else ⌊q⌋ + 1) else round q

/-- `round(x, 2)`: round to two decimal places, ties to even. -/
def py_round2 (q : ℚ) : ℚ := (round_half_even (q * 100) : ℚ) / 100

/-- One row of the finalized frame: the itinerary row plus
`Duration DT` (total seconds, exact here since datetimes carry whole
seconds), `duration` (hours, rounded to 2 decimals) and the `Updated`
stamp. The ~35-column schema padding fills only constant `None` columns
and is not modelled. -/
structure FinalRow where
  itin : ItineraryRow
  duration_dt : Int
  duration : ℚ
  updated : String
  deriving DecidableEq

/-- `calculate_flight_metrics`:
`Duration DT = (Arrival DT - Departure DT).total_seconds()` and
`duration = round(Duration DT / (60**2), 2)`; `now_s` is the `Updated`
timestamp string. -/
def calculate_flight_metrics (now_s : String) (r : ItineraryRow) : FinalRow :=
  { itin := r
    duration_dt := r.arrival_dt - r.departure_dt
    duration := py_round2 (((r.arrival_dt - r.departure_dt : Int) : ℚ) / (60 ^ 2))
    updated := now_s }

/-! ## Sample values used by the witnesses -/

/-- A sample in-progress accumulator with all six required fields truthy. -/
def sampleDetails : FlightDetails :=
  { flight_type := .F
    s_id := 1
    f_id := some "XX11"
    carrier := some "XX"
    origin := some "AAA"
    destination := some "BBB"
    depart_dt := some (.str "2024-01-01T10:00:00")
    arrive_dt := some (.str "2024-01-01T13:30:00")
    aircraft := some "738"
    width := some "N"
    query_type := .ORIGIN
    batch_num := 1 }

/-- A sample parse state mid-itinerary. -/
def sampleParseState : ParseState :=
  { dfs := []
    s_id := 1
    row := 0
    started_yet := true
    state := some sampleDetails
    dicts := emptyRefDicts }

/-- A sample itinerary row; departure `2024-01-01T10:00:00` and arrival
`2024-01-01T13:30:00` as epoch seconds (UTC). -/
def sampleItinerary : ItineraryRow :=
  { flight_type := "F"
    flights := "XX11"
    num_stops := 1
    origin_iata := "AAA"
    origin_airport_name := "A airport"
    origin_iso := "AA"
    origin_latitude := "0"
    origin_longitude := "0"
    via_iata := none
    destination_iata := "CCC"
    via_airport_name := "B airport"
    destination_airport_name := "C airport"
    via_iso := "BB"
    destination_iso := "CC"
    via_latitude := "1"
    destination_latitude := "2"
    via_longitude := "1"
    destination_longitude := "2"
    airline_codes := "XX"
    airline_names := "Xair"
    aircrafts := "738"
    widths := "N"
    departure_dt := 1704103200
    arrival_dt := 1704115800
    origin_country := "Aland"
    destination_country := "Cland" }

/-- A document whose single solution reaches a second `aircraft` element
with no `flight` element since the first: one `flight`, two `leg` +
`aircraft` pairs. -/
def docTwoAircraft : List Element :=
  [ ⟨"itineraryFullDetail", []⟩
  , ⟨"solution", []⟩
  , ⟨"flight", [("carrier", "XX"), ("number", "11")]⟩
  , ⟨"leg", [("origin", "AAA"), ("destination", "BBB"),
             ("departure", "d1"), ("arrival", "a1")]⟩
  , ⟨"aircraft", [("name", "738"), ("width", "N")]⟩
  , ⟨"leg", [("origin", "BBB"), ("destination", "CCC"),
             ("departure", "d2"), ("arrival", "a2")]⟩
  , ⟨"aircraft", [("name", "744"), ("width", "W")]⟩ ]

/-- The (successful) parse output of `docTwoAircraft`, extracted for the
C9 witness. -/
def parseOutTwoAircraft : List LegRow × Nat × Nat × RefDicts :=
  (parse_results 0 docTwoAircraft .F .ORIGIN 1 emptyRefDicts).toOption.getD
    ([], 0, 0, emptyRefDicts)

/-- Relation between in-progress accumulators of two parser runs that
differ only in their clock: all fields agree except that the timestamp
fields may differ when the origin is falsy (they then hold the two runs'
clock readings, which never reach an emitted row). -/
structure DetailsRel (a b : FlightDetails) : Prop where
  ftype : a.flight_type = b.flight_type
  sid : a.s_id = b.s_id
  fid : a.f_id = b.f_id
  car : a.carrier = b.carrier
  ori : a.origin = b.origin
  dst : a.destination = b.destination
  air : a.aircraft = b.aircraft
  wid : a.width = b.width
  qtype : a.query_type = b.query_type
  bnum : a.batch_num = b.batch_num
  times : truthyStr a.origin = true →
    a.depart_dt = b.depart_dt ∧ a.arrive_dt = b.arrive_dt

/-- `DetailsRel` lifted to optional accumulators. -/
def StateRel : Option FlightDetails → Option FlightDetails → Prop
  | none, none => True
  | some a, some b => DetailsRel a b
  | _, _ => False

/-- Relation between whole parser loop states of two runs differing only
in their clock: everything observable is equal; only the in-progress
timestamps may differ, and only while the origin is falsy. -/
structure PsRel (p q : ParseState) : Prop where
  dfs : p.dfs = q.dfs
  sid : p.s_id = q.s_id
  row : p.row = q.row
  started : p.started_yet = q.started_yet
  dicts : p.dicts = q.dicts
  st : StateRel p.state q.state

/-- A two-leg itinerary `AAA → BBB → CCC` for the C3 witness. -/
def sampleLeg1 : EnrichedRow :=
  { solution_id := 1
    flight_type := "F"
    flight_num := "XX11"
    origin := "AAA"
    origin_airport_name := "A airport"
    origin_country := "AA"
    origin_latitude := "0"
    origin_longitude := "0"
    destination := "BBB"
    destination_airport_name := "B airport"
    destination_country := "BB"
    destination_latitude := "1"
    destination_longitude := "1"
    airline_code := "XX"
    airline_name := "Xair"
    aircraft := "738"
    width := "N"
    departure := 0
    arrival := 10 }

/-- Second leg of the C3 witness itinerary. -/
def sampleLeg2 : EnrichedRow :=
  { sampleLeg1 with
    flight_num := "XX12"
    origin := "BBB"
    origin_airport_name := "B airport"
    origin_country := "BB"
    origin_latitude := "1"
    origin_longitude := "1"
    destination := "CCC"
    destination_airport_name := "C airport"
    destination_country := "CC"
    destination_latitude := "2"
    destination_longitude := "2"
    departure := 20
    arrival := 30 }

/-- Countries table for the C3 witness. -/
def sampleCountries : List CountryRow :=
  [⟨"AA", "Aland"⟩, ⟨"BB", "Bland"⟩, ⟨"CC", "Cland"⟩]

/-- A leg row whose origin occurs in the airport reference table. -/
def cexLegA : LegRow :=
  { flight_type := .F
    origin := some "AAA"
    destination := some "BBB"
    f_id := some "XX11"
    carrier := some "XX"
    aircraft := some "738"
    width := some "N"
    s_id := 1
    depart_dt := some (.str "d1")
    arrive_dt := some (.str "a1")
    query_type := .ORIGIN
    batch_num := 1
    index := 0 }

/-- A leg row whose origin occurs in no airport reference table used
below. -/
def cexLegZ : LegRow :=
  { cexLegA with origin := some "ZZZ", s_id := 2, index := 1 }

/-- An airport reference table containing the code `AAA` twice (two
distinct rows, as survives the exact-row deduplication of the reference
builder). -/
def cexAirportsDup : List AirportRef :=
  [⟨"AAA", "Alpha One", "AA", "0", "0"⟩, ⟨"AAA", "Alpha Two", "AA", "0", "0"⟩]

/-- An airport reference table with unique codes. -/
def cexAirportsU : List AirportRef :=
  [⟨"AAA", "Alpha One", "AA", "0", "0"⟩]

/-! ## Claim theorems -/

/-- Claim C6: When the parser processes a `leg` element with any of the four
attributes `origin`, `destination`, `departure`, `arrival` missing, it
sets both origin and destination of the in-progress record to the empty
string and both timestamp fields to the parse-time clock; when all four
attributes are present it records each attribute value unchanged. -/
theorem update_leg_info_defaulting (t : Nat) (child : Element) (st : FlightDetails) :
    (∀ o d dep arr,
      child.attrib.lookup "origin" = some o →
      child.attrib.lookup "destination" = some d →
      child.attrib.lookup "departure" = some dep →
      child.attrib.lookup "arrival" = some arr →
      update_leg_info t child st =
        { st with
          origin := some o
          destination := some d
          depart_dt := some (.str dep)
          arrive_dt := some (.str arr) }) ∧
    ((child.attrib.lookup "origin" = none ∨
      child.attrib.lookup "destination" = none ∨
      child.attrib.lookup "departure" = none ∨
      child.attrib.lookup "arrival" = none) →
      update_leg_info t child st =
        { st with
          origin := some ""
          destination := some ""
          depart_dt := some (.clock t)
          arrive_dt := some (.clock t) }) := by
  constructor
  · intro o d dep arr h1 h2 h3 h4
    simp [update_leg_info, h1, h2, h3, h4]
  · intro h
    unfold update_leg_info
    rcases h with h | h | h | h <;> rw [h] <;>
      cases child.attrib.lookup "origin" <;>
      cases child.attrib.lookup "destination" <;>
      cases child.attrib.lookup "departure" <;>
      cases child.attrib.lookup "arrival" <;> rfl

/-- Witness for C6: the theorem applied to one complete and one
incomplete `leg` element. -/
theorem update_leg_info_defaulting_witness :
    update_leg_info 7
        ⟨"leg", [("origin", "AAA"), ("destination", "BBB"),
                 ("departure", "d1"), ("arrival", "a1")]⟩ sampleDetails =
      { sampleDetails with
        origin := some "AAA"
        destination := some "BBB"
        depart_dt := some (.str "d1")
        arrive_dt := some (.str "a1") } ∧
    update_leg_info 7 ⟨"leg", [("origin", "AAA")]⟩ sampleDetails =
      { sampleDetails with
        origin := some ""
        destination := some ""
        depart_dt := some (.clock 7)
        arrive_dt := some (.clock 7) } :=
  ⟨(update_leg_info_defaulting 7
      ⟨"leg", [("origin", "AAA"), ("destination", "BBB"),
               ("departure", "d1"), ("arrival", "a1")]⟩ sampleDetails).1
      "AAA" "BBB" "d1" "a1" rfl rfl rfl rfl,
   (update_leg_info_defaulting 7 ⟨"leg", [("origin", "AAA")]⟩ sampleDetails).2
      (Or.inr (Or.inl rfl))⟩

/-- Claim C8: The finalizer computes duration in seconds as
(final arrival − first departure) and duration in hours as that value
divided by 3600 (= 60²) rounded to 2 decimal places; for departure
`2024-01-01T10:00:00` and arrival `2024-01-01T13:30:00` the computed
duration equals 3.50 hours. -/
theorem duration_metrics :
    (∀ (now_s : String) (r : ItineraryRow),
      (calculate_flight_metrics now_s r).duration_dt =
          r.arrival_dt - r.departure_dt ∧
      (calculate_flight_metrics now_s r).duration =
          py_round2 (((r.arrival_dt - r.departure_dt : Int) : ℚ) / 3600)) ∧
    (calculate_flight_metrics "t0" sampleItinerary).duration = 7 / 2 := by
  refine ⟨fun now_s r => ⟨rfl, by norm_num [calculate_flight_metrics]⟩, ?_⟩
  show py_round2 (((1704115800 - 1704103200 : Int) : ℚ) / (60 ^ 2)) = 7 / 2
  norm_num [py_round2, round_half_even, Int.fract]

/-- Claim C1: For every parsed result document, a `LegRecord` row is
appended to the parser's output exactly when, at the time an `aircraft`
element is reached, all six of flight type, origin, destination, flight
id, carrier, and itinerary id are non-empty in the in-progress
accumulator (`validate_flight_details`, the Python truthiness of exactly
those six fields); when any of them is empty the pending record is
dropped (the `ValueError` diagnostic is caught) and parsing continues
with the next element, producing no row for that `aircraft` element. -/
theorem legrow_emitted_iff_six_fields_truthy
    (ft : FlightType) (qt : QueryType) (bn t : Nat)
    (ps : ParseState) (child : Element) (st : FlightDetails) (n w : String)
    (hstart : ps.started_yet = true) (hstate : ps.state = some st)
    (htag : child.tag = "aircraft")
    (hn : child.attrib.lookup "name" = some n)
    (hw : child.attrib.lookup "width" = some w) :
    parseStep ft qt bn t ps child = .ok
      (if validate_flight_details st then
        { ps with
          dicts := process_dict_updates child ps.dicts
          state := some { st with aircraft := some n, width := some w }
          dfs := ps.dfs ++
            [create_flight_row { st with aircraft := some n, width := some w } ps.row]
          row := ps.row + 1 }
      else
        { ps with
          dicts := process_dict_updates child ps.dicts
          state := some { st with aircraft := some n, width := some w } }) := by
  have hval : validate_flight_details { st with aircraft := some n, width := some w } =
      validate_flight_details st := rfl
  unfold parseStep
  simp only [hstart, htag, Bool.true_or]
  simp only [update_flight_details, update_aircraft_info, handle_create_df_row, htag,
    hstate, hn, hw]
  cases hv : validate_flight_details st
  · simp [hv, hval, hstate]
  · simp [hv, hval, hstate]

/-- Witness for C1: the theorem applied at a concrete mid-itinerary state
(all six fields truthy) and a concrete `aircraft` element. -/
theorem legrow_emitted_iff_six_fields_truthy_witness :
    parseStep .F .ORIGIN 1 0 sampleParseState
        ⟨"aircraft", [("name", "744"), ("width", "W")]⟩ = .ok
      (if validate_flight_details sampleDetails then
        { sampleParseState with
          dicts := process_dict_updates
            ⟨"aircraft", [("name", "744"), ("width", "W")]⟩ sampleParseState.dicts
          state := some { sampleDetails with aircraft := some "744", width := some "W" }
          dfs := sampleParseState.dfs ++
            [create_flight_row
              { sampleDetails with aircraft := some "744", width := some "W" }
              sampleParseState.row]
          row := sampleParseState.row + 1 }
      else
        { sampleParseState with
          dicts := process_dict_updates
            ⟨"aircraft", [("name", "744"), ("width", "W")]⟩ sampleParseState.dicts
          state := some { sampleDetails with aircraft := some "744", width := some "W" } }) :=
  legrow_emitted_iff_six_fields_truthy .F .ORIGIN 1 0 sampleParseState
    ⟨"aircraft", [("name", "744"), ("width", "W")]⟩ sampleDetails "744" "W"
    rfl rfl rfl rfl rfl

/-- The chunks produced by `batch_list` concatenate back to the input. -/
theorem batch_list_flatten {α : Type} (n : Nat) (hn : n ≠ 0) (l : List α) :
    (batch_list l n).flatten = l := by
  have key : ∀ (k : Nat) (l : List α), l.length ≤ k → (batch_list l n).flatten = l := by
    intro k
    induction k with
    | zero =>
      intro l hl
      have hnil : l = [] := List.length_eq_zero.mp (Nat.le_zero.mp hl)
      subst hnil
      simp [batch_list]
    | succ k ih =>
      intro l hl
      rw [batch_list]
      by_cases he : l.isEmpty = true
      · have hnil : l = [] := List.isEmpty_iff.mp he
        subst hnil
        simp
      · rw [if_neg he, if_neg hn, List.flatten_cons]
        rw [ih (l.drop n) (by rw [List.length_drop]; omega)]
        exact List.take_append_drop n l
  exact key l.length l le_rfl

/-- Every chunk produced by `batch_list` has at most `n` elements. -/
theorem batch_list_chunk_le {α : Type} (n : Nat) (l : List α) :
    ∀ c ∈ batch_list l n, c.length ≤ n := by
  have key : ∀ (k : Nat) (l : List α), l.length ≤ k →
      ∀ c ∈ batch_list l n, c.length ≤ n := by
    intro k
    induction k with
    | zero =>
      intro l hl c hc
      have hnil : l = [] := List.length_eq_zero.mp (Nat.le_zero.mp hl)
      subst hnil
      simp [batch_list] at hc
    | succ k ih =>
      intro l hl c hc
      rw [batch_list] at hc
      by_cases he : l.isEmpty = true
      · rw [if_pos he] at hc
        simp at hc
      · by_cases h0 : n = 0
        · rw [if_neg he, if_pos h0] at hc
          simp at hc
        · rw [if_neg he, if_neg h0] at hc
          rcases List.mem_cons.mp hc with h | h
          · subst h
            exact l.length_take_le n
          · exact ih (l.drop n) (by rw [List.length_drop]; omega) c h
  exact key l.length l le_rfl

/-- The batched-mode output of `generate_xml_query_batch`, for any fixed
primary/secondary configuration: chunk bound, exact partition of the
primary list, constant secondary list, batch numbers `1, 2, ...`. -/
theorem batch_planner_core (pe se : String) (P S : List String) (N : Nat) (hN0 : N ≠ 0) :
    (∀ pq ∈ (List.enumFrom 1 (batch_list P N)).map
        (fun p => ((⟨pe, se, p.2, S⟩ : QueryPayload), p.1)),
      pq.1.primary.length ≤ N ∧ pq.1.secondary = S) ∧
    (((List.enumFrom 1 (batch_list P N)).map
        (fun p => ((⟨pe, se, p.2, S⟩ : QueryPayload), p.1))).map
          (fun pq => pq.1.primary)).flatten = P ∧
    ((List.enumFrom 1 (batch_list P N)).map
        (fun p => ((⟨pe, se, p.2, S⟩ : QueryPayload), p.1))).map Prod.snd =
      List.range' 1 ((List.enumFrom 1 (batch_list P N)).map
        (fun p => ((⟨pe, se, p.2, S⟩ : QueryPayload), p.1))).length := by
  refine ⟨?_, ?_, ?_⟩
  · intro pq hpq
    obtain ⟨p, hp, he⟩ := List.exists_of_mem_map hpq
    subst he
    refine ⟨?_, rfl⟩
    have hsnd := List.mem_map_of_mem Prod.snd hp
    rw [List.enumFrom_map_snd] at hsnd
    exact batch_list_chunk_le N _ p.2 hsnd
  · rw [List.map_map]
    have hcomp : ((fun pq : QueryPayload × Nat => pq.1.primary) ∘
        (fun p : Nat × List String => ((⟨pe, se, p.2, S⟩ : QueryPayload), p.1))) =
          Prod.snd := rfl
    rw [hcomp, List.enumFrom_map_snd]
    exact batch_list_flatten N hN0 P
  · rw [List.map_map]
    have hcomp : (Prod.snd ∘
        (fun p : Nat × List String => ((⟨pe, se, p.2, S⟩ : QueryPayload), p.1))) =
          Prod.fst := rfl
    rw [hcomp, List.enumFrom_map_fst, List.length_map, List.enumFrom_length]

/-- Claim C2: With batching enabled and batch size `N > 0` (and a non-empty
primary code list), every payload of the batch planner carries at most
`N` primary codes, the concatenation of the primary chunks over all
payloads equals the input primary code list exactly, every payload
carries the entire secondary code list, and batch numbers are
`1, 2, 3, ...` in output order. The primary list is the
origin-and-destination codes followed by the batched side's codes; the
secondary list is the opposite side's codes. -/
theorem batch_planner_partition (qt : QueryType)
    (ori dest od : List String) (N : Nat) (hN : 0 < N)
    (hne : (match qt with
            | QueryType.ORIGIN => od ++ ori
            | QueryType.DESTINATION => od ++ dest) ≠ []) :
    (∀ pq ∈ generate_xml_query_batch qt ori dest od true N,
        pq.1.primary.length ≤ N ∧
        pq.1.secondary = (match qt with
                          | QueryType.ORIGIN => dest
                          | QueryType.DESTINATION => ori)) ∧
    ((generate_xml_query_batch qt ori dest od true N).map
        (fun pq => pq.1.primary)).flatten =
      (match qt with
       | QueryType.ORIGIN => od ++ ori
       | QueryType.DESTINATION => od ++ dest) ∧
    (generate_xml_query_batch qt ori dest od true N).map Prod.snd =
      List.range' 1 (generate_xml_query_batch qt ori dest od true N).length := by
  have hN0 : N ≠ 0 := Nat.pos_iff_ne_zero.mp hN
  cases qt
  · exact batch_planner_core "origin" "destination" (od ++ ori) dest N hN0
  · exact batch_planner_core "destination" "origin" (od ++ dest) ori N hN0

/-- Witness for C2: the theorem applied with origin batching, batch size
2, and five primary codes. -/
theorem batch_planner_partition_witness :
    (∀ pq ∈ generate_xml_query_batch QueryType.ORIGIN ["A", "B", "C"] ["D"] ["E", "G"] true 2,
        pq.1.primary.length ≤ 2 ∧ pq.1.secondary = ["D"]) ∧
    ((generate_xml_query_batch QueryType.ORIGIN ["A", "B", "C"] ["D"] ["E", "G"] true 2).map
        (fun pq => pq.1.primary)).flatten = ["E", "G"] ++ ["A", "B", "C"] ∧
    (generate_xml_query_batch QueryType.ORIGIN ["A", "B", "C"] ["D"] ["E", "G"] true 2).map
        Prod.snd =
      List.range' 1
        (generate_xml_query_batch QueryType.ORIGIN ["A", "B", "C"] ["D"] ["E", "G"] true 2).length :=
  batch_planner_partition QueryType.ORIGIN ["A", "B", "C"] ["D"] ["E", "G"] 2
    (by decide) (by simp)

/-- Claim C7: No element occurring before the results-start marker
(`itineraryFullDetail`), or after the marker but before the first
itinerary-start (`solution`) element, contributes to a `LegRecord`: the
step leaves `dfs`, `row`, `s_id` and the accumulator untouched, updating
only the reference dictionaries (and the started flag on the marker);
and the reference dictionaries are updated for every element regardless
of parser state (on every successful step the resulting dictionaries are
`process_dict_updates` of the incoming ones). -/
theorem pre_itinerary_elements_only_touch_refs
    (ft : FlightType) (qt : QueryType) (bn t : Nat)
    (ps : ParseState) (child : Element) :
    (ps.started_yet = false → child.tag ≠ "itineraryFullDetail" →
      parseStep ft qt bn t ps child =
        .ok { ps with dicts := process_dict_updates child ps.dicts }) ∧
    (ps.started_yet = false → ps.state = none →
      parseStep ft qt bn t ps child =
        .ok { ps with
              dicts := process_dict_updates child ps.dicts
              started_yet := decide (child.tag = "itineraryFullDetail") }) ∧
    (ps.started_yet = true → ps.state = none → child.tag ≠ "solution" →
      parseStep ft qt bn t ps child =
        .ok { ps with dicts := process_dict_updates child ps.dicts }) ∧
    (∀ ps', parseStep ft qt bn t ps child = .ok ps' →
      ps'.dicts = process_dict_updates child ps.dicts) := by
  refine ⟨?_, ?_, ?_, ?_⟩
  · intro h0 hm
    simp [parseStep, h0, hm]
  · intro h0 hn
    by_cases hm : child.tag = "itineraryFullDetail"
    · simp [parseStep, h0, hm, hn]
    · simp [parseStep, h0, hm]
  · intro h1 hn hs
    simp [parseStep, h1, hs, hn]
  · intro ps' h
    simp only [parseStep] at h
    repeat' split at h
    all_goals
      first
        | (injection h with h2; subst h2; rfl)
        | injection h

/-- Witness for C7: the theorem applied before the marker (a `carrier`
element), at the marker with no itinerary, and after the marker before
the first `solution` element. -/
theorem pre_itinerary_elements_only_touch_refs_witness :
    (parseStep .F .ORIGIN 1 0
        { dfs := [], s_id := 0, row := 0, started_yet := false, state := none,
          dicts := emptyRefDicts }
        ⟨"carrier", [("code", "XX"), ("name", "Xair"), ("shortName", "X")]⟩ =
      .ok { dfs := [], s_id := 0, row := 0, started_yet := false, state := none,
            dicts := process_dict_updates
              ⟨"carrier", [("code", "XX"), ("name", "Xair"), ("shortName", "X")]⟩
              emptyRefDicts }) ∧
    (parseStep .F .ORIGIN 1 0
        { dfs := [], s_id := 0, row := 0, started_yet := true, state := none,
          dicts := emptyRefDicts }
        ⟨"airport", [("city", "AAA"), ("code", "AAA")]⟩ =
      .ok { dfs := [], s_id := 0, row := 0, started_yet := true, state := none,
            dicts := process_dict_updates ⟨"airport", [("city", "AAA"), ("code", "AAA")]⟩
              emptyRefDicts }) :=
  ⟨(pre_itinerary_elements_only_touch_refs .F .ORIGIN 1 0
      { dfs := [], s_id := 0, row := 0, started_yet := false, state := none,
        dicts := emptyRefDicts }
      ⟨"carrier", [("code", "XX"), ("name", "Xair"), ("shortName", "X")]⟩).1
      rfl (by decide),
   (pre_itinerary_elements_only_touch_refs .F .ORIGIN 1 0
      { dfs := [], s_id := 0, row := 0, started_yet := true, state := none,
        dicts := emptyRefDicts }
      ⟨"airport", [("city", "AAA"), ("code", "AAA")]⟩).2.2.1
      rfl rfl (by decide)⟩

/-- Claim C10: Within one itinerary (`solution` element), the in-progress
accumulator is never reset between materialized records: an `aircraft`
element only overwrites the aircraft/width fields, a `leg` element only
the origin/destination/timestamp fields, tags outside the handler table
leave the accumulator unchanged, and a fresh accumulator is created only
at the next `solution` element. Consequently, in a document whose second
`aircraft` element is reached with no `flight` element since the first,
both emitted rows carry the same flight id and carrier code. -/
theorem accumulator_persists_within_solution
    (ft : FlightType) (qt : QueryType) (bn t : Nat)
    (ps : ParseState) (st : FlightDetails) (child : Element)
    (h1 : ps.started_yet = true) (h2 : ps.state = some st) :
    (∀ n w, child.tag = "aircraft" →
      child.attrib.lookup "name" = some n →
      child.attrib.lookup "width" = some w →
      (parseStep ft qt bn t ps child).map (fun p => p.state) =
        .ok (some { st with aircraft := some n, width := some w })) ∧
    (child.tag = "leg" →
      parseStep ft qt bn t ps child =
        .ok { ps with
              dicts := process_dict_updates child ps.dicts
              state := some (update_leg_info t child st) } ∧
      (update_leg_info t child st).f_id = st.f_id ∧
      (update_leg_info t child st).carrier = st.carrier ∧
      (update_leg_info t child st).aircraft = st.aircraft ∧
      (update_leg_info t child st).width = st.width ∧
      (update_leg_info t child st).s_id = st.s_id) ∧
    (child.tag = "solution" →
      parseStep ft qt bn t ps child =
        .ok { ps with
              dicts := process_dict_updates child ps.dicts
              s_id := ps.s_id + 1
              state := some
                { flight_type := ft
                  s_id := ps.s_id + 1
                  f_id := none
                  carrier := none
                  origin := none
                  destination := none
                  depart_dt := none
                  arrive_dt := none
                  aircraft := none
                  width := none
                  query_type := qt
                  batch_num := bn } }) ∧
    (child.tag ∉ (["flight", "leg", "aircraft", "solution"] : List String) →
      parseStep ft qt bn t ps child =
        .ok { ps with dicts := process_dict_updates child ps.dicts }) ∧
    ((parse_results 0 docTwoAircraft .F .ORIGIN 1 emptyRefDicts).map
        (fun o => o.1.map (fun r => (r.f_id, r.carrier))) =
      .ok [(some "XX11", some "XX"), (some "XX11", some "XX")]) := by
  refine ⟨?_, ?_, ?_, ?_, by rfl⟩
  · intro n w htag hn hw
    unfold parseStep
    simp only [h1, htag, Bool.true_or]
    simp only [update_flight_details, update_aircraft_info, handle_create_df_row, htag,
      h2, hn, hw]
    cases hv : validate_flight_details { st with aircraft := some n, width := some w } <;>
      simp [hv, h2, Except.map]
  · intro htag
    have hpres : (update_leg_info t child st).f_id = st.f_id ∧
        (update_leg_info t child st).carrier = st.carrier ∧
        (update_leg_info t child st).aircraft = st.aircraft ∧
        (update_leg_info t child st).width = st.width ∧
        (update_leg_info t child st).s_id = st.s_id := by
      unfold update_leg_info
      cases child.attrib.lookup "origin" <;>
        cases child.attrib.lookup "destination" <;>
        cases child.attrib.lookup "departure" <;>
        cases child.attrib.lookup "arrival" <;>
        exact ⟨rfl, rfl, rfl, rfl, rfl⟩
    refine ⟨?_, hpres.1, hpres.2.1, hpres.2.2.1, hpres.2.2.2.1, hpres.2.2.2.2⟩
    unfold parseStep
    simp only [h1, htag, Bool.true_or]
    simp only [update_flight_details, handle_create_df_row, htag, h2]
    simp [h2, h1]
  · intro htag
    unfold parseStep
    simp only [h1, htag, Bool.true_or]
    simp only [update_flight_details, handle_create_df_row, htag]
    simp [h1]
  · intro htag
    simp only [List.mem_cons, List.mem_singleton, not_or] at htag
    obtain ⟨hf, hl, ha, hs⟩ := htag
    unfold parseStep
    simp only [h1, Bool.true_or]
    simp only [update_flight_details, handle_create_df_row, hf, hl, ha, hs, h2]
    simp [h2, h1, hf, hl, ha, hs]

/-- Witness for C10: the theorem applied mid-itinerary to a leg element
(retaining flight id and carrier) and, through its closed conjunct, the
two-aircraft document. -/
theorem accumulator_persists_within_solution_witness :
    parseStep .F .ORIGIN 1 0 sampleParseState ⟨"leg", [("origin", "BBB")]⟩ =
      .ok { sampleParseState with
            dicts := process_dict_updates ⟨"leg", [("origin", "BBB")]⟩
              sampleParseState.dicts
            state := some (update_leg_info 0 ⟨"leg", [("origin", "BBB")]⟩
              sampleDetails) } ∧
    (update_leg_info 0 ⟨"leg", [("origin", "BBB")]⟩ sampleDetails).f_id =
      sampleDetails.f_id :=
  ⟨((accumulator_persists_within_solution .F .ORIGIN 1 0 sampleParseState
      sampleDetails ⟨"leg", [("origin", "BBB")]⟩ rfl rfl).2.1 rfl).1,
   ((accumulator_persists_within_solution .F .ORIGIN 1 0 sampleParseState
      sampleDetails ⟨"leg", [("origin", "BBB")]⟩ rfl rfl).2.1 rfl).2.1⟩

/-- A row produced by `handle_create_df_row` has a truthy origin (it
passed `validate_flight_details`). -/
theorem handle_create_some_truthy_origin (child : Element) (st : FlightDetails)
    (row : Nat) (df : LegRow)
    (h : handle_create_df_row child st row = .ok (some df)) :
    truthyStr df.origin = true := by
  unfold handle_create_df_row at h
  split at h
  · split at h
    · rename_i hval
      injection h with h2
      injection h2 with h3
      subst h3
      unfold validate_flight_details at hval
      simp only [Bool.and_eq_true] at hval
      exact hval.1.1.1.1
    · injection h
  · injection h with h2
    injection h2

/-- One parser step preserves "every emitted row has a truthy origin". -/
theorem parseStep_dfs_truthy (ft : FlightType) (qt : QueryType) (bn t : Nat)
    (ps : ParseState) (child : Element) (ps' : ParseState)
    (h : parseStep ft qt bn t ps child = .ok ps')
    (hin : ∀ r ∈ ps.dfs, truthyStr r.origin = true) :
    ∀ r ∈ ps'.dfs, truthyStr r.origin = true := by
  simp only [parseStep] at h
  repeat' split at h
  all_goals
    first
      | exact Except.noConfusion h
      | (injection h with h2
         subst h2
         intro r hr
         simp only [apply_ite ParseState.dfs, ite_self, List.mem_append,
           List.mem_singleton] at hr
         first
           | exact hin r hr
           | (rcases hr with hr | rfl
              exacts [hin r hr,
                handle_create_some_truthy_origin _ _ _ _ (by assumption)]))

/-- The fold of parser steps preserves the truthy-origin row invariant. -/
theorem foldlM_dfs_truthy (ft : FlightType) (qt : QueryType) (bn t : Nat) :
    ∀ (doc : List Element) (ps res : ParseState),
      (∀ r ∈ ps.dfs, truthyStr r.origin = true) →
      doc.foldlM (parseStep ft qt bn t) ps = .ok res →
      ∀ r ∈ res.dfs, truthyStr r.origin = true := by
  intro doc
  induction doc with
  | nil =>
    intro ps res hin h
    have h' : Except.ok ps = Except.ok res := h
    injection h' with h2
    subst h2
    exact hin
  | cons c cs ih =>
    intro ps res hin h
    have h' : (parseStep ft qt bn t ps c >>= fun b =>
        List.foldlM (parseStep ft qt bn t) b cs) = .ok res := h
    cases hstep : parseStep ft qt bn t ps c with
    | error e =>
      rw [hstep] at h'
      exact Except.noConfusion h'
    | ok ps1 =>
      rw [hstep] at h'
      exact ih ps1 res
        (parseStep_dfs_truthy ft qt bn t ps c ps1 hstep hin) h'

/-- Claim C9: Every `LegRecord` materialized by the parser has a truthy
(non-`None`, non-empty) origin string, because validation requires a
truthy origin before a row is created; consequently the downstream
cleaning step that removes rows with empty origin removes zero rows from
any dataset produced solely by the parser. -/
theorem parser_rows_truthy_origin_clean_noop
    (t : Nat) (doc : List Element) (ft : FlightType) (qt : QueryType)
    (bn : Nat) (d0 : RefDicts) (out : List LegRow × Nat × Nat × RefDicts)
    (h : parse_results t doc ft qt bn d0 = .ok out) :
    (∀ r ∈ out.1, truthyStr r.origin = true) ∧
    clean_raw_flight_data out.1 = out.1 := by
  unfold parse_results at h
  cases hfold : List.foldlM (parseStep ft qt bn t)
      { dfs := [], s_id := 0, row := 0, started_yet := false, state := none,
        dicts := d0 } doc with
  | error e =>
    rw [hfold] at h
    simp [Except.map] at h
  | ok res =>
    rw [hfold] at h
    simp only [Except.map] at h
    injection h with h2
    have hrows : ∀ r ∈ res.dfs, truthyStr r.origin = true :=
      foldlM_dfs_truthy ft qt bn t doc _ res (by simp) hfold
    have hout1 : out.1 = res.dfs := by rw [← h2]
    rw [hout1]
    refine ⟨hrows, ?_⟩
    apply List.filter_eq_self.mpr
    intro r hr
    have htr := hrows r hr
    cases ho : r.origin with
    | none => rw [ho] at htr; simp [truthyStr] at htr
    | some s =>
      rw [ho] at htr
      simp only [truthyStr, Bool.not_eq_true'] at htr
      simp only [decide_eq_true_eq, ho, ne_eq, Option.some.injEq]
      intro hc
      subst hc
      simp at htr

/-- Witness for C9: the theorem applied to a concrete successfully parsed
document. -/
theorem parser_rows_truthy_origin_clean_noop_witness :
    (∀ r ∈ (parseOutTwoAircraft).1, truthyStr r.origin = true) ∧
    clean_raw_flight_data (parseOutTwoAircraft).1 = (parseOutTwoAircraft).1 :=
  parser_rows_truthy_origin_clean_noop 0 docTwoAircraft .F .ORIGIN 1
    emptyRefDicts parseOutTwoAircraft rfl

/-- `update_flight_info` preserves the accumulator relation (it reads only
the element, which is shared). -/
theorem update_flight_info_rel (child : Element) (a b : FlightDetails)
    (h : DetailsRel a b) :
    (∃ a' b', update_flight_info child a = .ok a' ∧
      update_flight_info child b = .ok b' ∧ DetailsRel a' b') ∨
    (∃ e, update_flight_info child a = .error e ∧
      update_flight_info child b = .error e) := by
  unfold update_flight_info
  cases hc : child.attrib.lookup "carrier" with
  | none => exact Or.inr ⟨"KeyError", rfl, rfl⟩
  | some c =>
    cases hn : child.attrib.lookup "number" with
    | none => exact Or.inr ⟨"KeyError", rfl, rfl⟩
    | some n =>
      refine Or.inl ⟨_, _, rfl, rfl, ?_⟩
      exact { h with fid := rfl, car := rfl, times := h.times }

/-- `update_leg_info` preserves the accumulator relation: with all four
attributes present both runs record the same strings; otherwise both set
a falsy origin, under which the differing clock timestamps are allowed. -/
theorem update_leg_info_rel (t1 t2 : Nat) (child : Element)
    (a b : FlightDetails) (h : DetailsRel a b) :
    DetailsRel (update_leg_info t1 child a) (update_leg_info t2 child b) := by
  unfold update_leg_info
  cases child.attrib.lookup "origin" <;>
    cases child.attrib.lookup "destination" <;>
    cases child.attrib.lookup "departure" <;>
    cases child.attrib.lookup "arrival" <;>
    exact
      { ftype := h.ftype
        sid := h.sid
        fid := h.fid
        car := h.car
        ori := rfl
        dst := rfl
        air := h.air
        wid := h.wid
        qtype := h.qtype
        bnum := h.bnum
        times := fun htr => by
          first
            | exact ⟨rfl, rfl⟩
            | simp [truthyStr] at htr }

/-- `update_aircraft_info` preserves the accumulator relation. -/
theorem update_aircraft_info_rel (child : Element) (a b : FlightDetails)
    (h : DetailsRel a b) :
    (∃ a' b', update_aircraft_info child a = .ok a' ∧
      update_aircraft_info child b = .ok b' ∧ DetailsRel a' b') ∨
    (∃ e, update_aircraft_info child a = .error e ∧
      update_aircraft_info child b = .error e) := by
  unfold update_aircraft_info
  cases hn : child.attrib.lookup "name" with
  | none => exact Or.inr ⟨"KeyError", rfl, rfl⟩
  | some n =>
    cases hw : child.attrib.lookup "width" with
    | none => exact Or.inr ⟨"KeyError", rfl, rfl⟩
    | some w =>
      refine Or.inl ⟨_, _, rfl, rfl, ?_⟩
      exact { h with air := rfl, wid := rfl, times := h.times }

/-- `update_flight_details` preserves the accumulator relation. -/
theorem update_flight_details_rel (t1 t2 : Nat) (child : Element)
    (a b : FlightDetails) (h : DetailsRel a b) :
    (∃ a' b', update_flight_details t1 child a = .ok a' ∧
      update_flight_details t2 child b = .ok b' ∧ DetailsRel a' b') ∨
    (∃ e, update_flight_details t1 child a = .error e ∧
      update_flight_details t2 child b = .error e) := by
  unfold update_flight_details
  by_cases hf : child.tag = "flight"
  · simp only [if_pos hf]
    exact update_flight_info_rel child a b h
  · simp only [if_neg hf]
    by_cases hl : child.tag = "leg"
    · simp only [if_pos hl]
      exact Or.inl ⟨_, _, rfl, rfl, update_leg_info_rel t1 t2 child a b h⟩
    · simp only [if_neg hl]
      by_cases ha : child.tag = "aircraft"
      · simp only [if_pos ha]
        exact update_aircraft_info_rel child a b h
      · simp only [if_neg ha]
        exact Or.inl ⟨a, b, rfl, rfl, h⟩

/-- Related accumulators validate identically (the six checked fields all
agree under the relation). -/
theorem validate_rel (a b : FlightDetails) (h : DetailsRel a b) :
    validate_flight_details a = validate_flight_details b := by
  unfold validate_flight_details
  rw [h.ori, h.dst, h.fid, h.car, h.sid]

/-- Related accumulators that validate produce equal rows: validation
forces a truthy origin, under which the timestamps agree. -/
theorem create_flight_row_rel (a b : FlightDetails) (row : Nat)
    (h : DetailsRel a b) (hv : validate_flight_details a = true) :
    create_flight_row a row = create_flight_row b row := by
  have htr : truthyStr a.origin = true := by
    unfold validate_flight_details at hv
    simp only [Bool.and_eq_true] at hv
    exact hv.1.1.1.1
  obtain ⟨hdep, harr⟩ := h.times htr
  simp only [create_flight_row, LegRow.mk.injEq]
  exact ⟨h.ftype, h.ori, h.dst, h.fid, h.car, h.air, h.wid, h.sid, hdep, harr,
    h.qtype, h.bnum, trivial⟩

/-- `handle_create_df_row` behaves identically on related accumulators:
both produce nothing, both produce the same row, or both raise. -/
theorem handle_create_df_row_rel (child : Element) (a b : FlightDetails)
    (row : Nat) (h : DetailsRel a b) :
    (handle_create_df_row child a row = .ok none ∧
      handle_create_df_row child b row = .ok none) ∨
    (∃ df, handle_create_df_row child a row = .ok (some df) ∧
      handle_create_df_row child b row = .ok (some df)) ∨
    (∃ e, handle_create_df_row child a row = .error e ∧
      handle_create_df_row child b row = .error e) := by
  unfold handle_create_df_row
  by_cases ha : child.tag = "aircraft"
  · simp only [if_pos ha]
    cases hv : validate_flight_details a with
    | false =>
      have hvb : validate_flight_details b = false := (validate_rel a b h) ▸ hv
      refine Or.inr (Or.inr ⟨"Flight details are not valid", ?_, ?_⟩) <;>
        simp [hvb]
    | true =>
      have hvb : validate_flight_details b = true := (validate_rel a b h) ▸ hv
      refine Or.inr (Or.inl ⟨create_flight_row a row, ?_, ?_⟩)
      · simp
      · simp [hvb, (create_flight_row_rel a b row h hv).symm]
  · simp only [if_neg ha]
    refine Or.inl ⟨?_, ?_⟩ <;> first | rfl | trivial

/-- One parser step, performed with two different clocks from related
loop states, yields related loop states — or fails identically. -/
theorem parseStep_rel (ft : FlightType) (qt : QueryType) (bn : Nat)
    (t1 t2 : Nat) (p q : ParseState) (child : Element) (h : PsRel p q) :
    (∃ p' q', parseStep ft qt bn t1 p child = .ok p' ∧
      parseStep ft qt bn t2 q child = .ok q' ∧ PsRel p' q') ∨
    (∃ e, parseStep ft qt bn t1 p child = .error e ∧
      parseStep ft qt bn t2 q child = .error e) := by
  by_cases hs : (p.started_yet || decide (child.tag = "itineraryFullDetail")) = false
  · have hsq : (q.started_yet || decide (child.tag = "itineraryFullDetail")) = false := by
      rw [← h.started]
      exact hs
    left
    refine ⟨{ p with dicts := process_dict_updates child p.dicts },
      { q with dicts := process_dict_updates child q.dicts }, ?_, ?_, ?_⟩
    · simp only [parseStep]
      rw [if_pos hs]
    · simp only [parseStep]
      rw [if_pos hsq]
    · exact ⟨h.dfs, h.sid, h.row, h.started, by rw [h.dicts], h.st⟩
  · have hsq : ¬(q.started_yet || decide (child.tag = "itineraryFullDetail")) = false := by
      rw [← h.started]
      exact hs
    by_cases hsol : child.tag = "solution"
    · have hf : ¬(child.tag = "flight") := by rw [hsol]; decide
      have hl : ¬(child.tag = "leg") := by rw [hsol]; decide
      have ha : ¬(child.tag = "aircraft") := by rw [hsol]; decide
      left
      refine ⟨{ p with
          dicts := process_dict_updates child p.dicts
          started_yet := p.started_yet || decide (child.tag = "itineraryFullDetail")
          s_id := p.s_id + 1
          state := some
            { flight_type := ft
              s_id := p.s_id + 1
              f_id := none
              carrier := none
              origin := none
              destination := none
              depart_dt := none
              arrive_dt := none
              aircraft := none
              width := none
              query_type := qt
              batch_num := bn } },
        { q with
          dicts := process_dict_updates child q.dicts
          started_yet := q.started_yet || decide (child.tag = "itineraryFullDetail")
          s_id := q.s_id + 1
          state := some
            { flight_type := ft
              s_id := q.s_id + 1
              f_id := none
              carrier := none
              origin := none
              destination := none
              depart_dt := none
              arrive_dt := none
              aircraft := none
              width := none
              query_type := qt
              batch_num := bn } }, ?_, ?_, ?_⟩
      · simp only [parseStep, update_flight_details, handle_create_df_row,
          if_neg hs, if_pos hsol, if_neg hf, if_neg hl, if_neg ha]
      · simp only [parseStep, update_flight_details, handle_create_df_row,
          if_neg hsq, if_pos hsol, if_neg hf, if_neg hl, if_neg ha]
      · refine ⟨h.dfs, by rw [h.sid], h.row, by rw [h.started], by rw [h.dicts], ?_⟩
        exact
          { ftype := rfl
            sid := by rw [h.sid]
            fid := rfl
            car := rfl
            ori := rfl
            dst := rfl
            air := rfl
            wid := rfl
            qtype := rfl
            bnum := rfl
            times := fun _ => ⟨rfl, rfl⟩ }
    · cases hp : p.state with
      | none =>
        cases hq : q.state with
        | some b =>
          have hst := h.st
          rw [hp, hq] at hst
          exact hst.elim
        | none =>
          left
          refine ⟨{ p with
              dicts := process_dict_updates child p.dicts
              started_yet := p.started_yet || decide (child.tag = "itineraryFullDetail") },
            { q with
              dicts := process_dict_updates child q.dicts
              started_yet := q.started_yet || decide (child.tag = "itineraryFullDetail") },
            ?_, ?_, ?_⟩
          · simp only [parseStep, if_neg hs, if_neg hsol, hp]
          · simp only [parseStep, if_neg hsq, if_neg hsol, hq]
          · refine ⟨h.dfs, h.sid, h.row, by rw [h.started], by rw [h.dicts], ?_⟩
            show StateRel p.state q.state
            rw [hp, hq]
            trivial
      | some a =>
        cases hq : q.state with
        | none =>
          have hst := h.st
          rw [hp, hq] at hst
          exact hst.elim
        | some b =>
          have hab : DetailsRel a b := by
            have hst := h.st
            rw [hp, hq] at hst
            exact hst
          rcases update_flight_details_rel t1 t2 child a b hab with
            ⟨a', b', hua, hub, hab'⟩ | ⟨e, hea, heb⟩
          · rcases handle_create_df_row_rel child a' b' p.row hab' with
              ⟨hna, hnb⟩ | ⟨df, hda, hdb⟩ | ⟨e, hva, hvb⟩
            · left
              refine ⟨{ p with
                  dicts := process_dict_updates child p.dicts
                  started_yet := p.started_yet || decide (child.tag = "itineraryFullDetail")
                  state := some a' },
                { q with
                  dicts := process_dict_updates child q.dicts
                  started_yet := q.started_yet || decide (child.tag = "itineraryFullDetail")
                  state := some b' }, ?_, ?_, ?_⟩
              · simp only [parseStep, if_neg hs, if_neg hsol, hp, hua, hna]
              · have hnb' : handle_create_df_row child b' q.row = .ok none := h.row ▸ hnb
                simp only [parseStep, if_neg hsq, if_neg hsol, hq, hub, hnb']
              · exact ⟨h.dfs, h.sid, h.row, by rw [h.started], by rw [h.dicts], hab'⟩
            · left
              refine ⟨{ p with
                  dicts := process_dict_updates child p.dicts
                  started_yet := p.started_yet || decide (child.tag = "itineraryFullDetail")
                  state := some a'
                  dfs := p.dfs ++ [df]
                  row := p.row + 1 },
                { q with
                  dicts := process_dict_updates child q.dicts
                  started_yet := q.started_yet || decide (child.tag = "itineraryFullDetail")
                  state := some b'
                  dfs := q.dfs ++ [df]
                  row := q.row + 1 }, ?_, ?_, ?_⟩
              · simp only [parseStep, if_neg hs, if_neg hsol, hp, hua, hda]
              · have hdb' : handle_create_df_row child b' q.row = .ok (some df) :=
                  h.row ▸ hdb
                simp only [parseStep, if_neg hsq, if_neg hsol, hq, hub, hdb']
              · refine ⟨by rw [h.dfs], h.sid, by rw [h.row], by rw [h.started],
                  by rw [h.dicts], hab'⟩
            · left
              refine ⟨{ p with
                  dicts := process_dict_updates child p.dicts
                  started_yet := p.started_yet || decide (child.tag = "itineraryFullDetail")
                  state := some a' },
                { q with
                  dicts := process_dict_updates child q.dicts
                  started_yet := q.started_yet || decide (child.tag = "itineraryFullDetail")
                  state := some b' }, ?_, ?_, ?_⟩
              · simp only [parseStep, if_neg hs, if_neg hsol, hp, hua, hva]
              · have hvb' : handle_create_df_row child b' q.row = .error e := h.row ▸ hvb
                simp only [parseStep, if_neg hsq, if_neg hsol, hq, hub, hvb']
              · exact ⟨h.dfs, h.sid, h.row, by rw [h.started], by rw [h.dicts], hab'⟩
          · right
            refine ⟨e, ?_, ?_⟩
            · simp only [parseStep, if_neg hs, if_neg hsol, hp, hea]
            · simp only [parseStep, if_neg hsq, if_neg hsol, hq, heb]

/-- The parser fold, run with two different clocks from related states,
yields related states or fails identically. -/
theorem foldlM_rel (ft : FlightType) (qt : QueryType) (bn t1 t2 : Nat) :
    ∀ (doc : List Element) (p q : ParseState), PsRel p q →
    (∃ p' q', List.foldlM (parseStep ft qt bn t1) p doc = .ok p' ∧
      List.foldlM (parseStep ft qt bn t2) q doc = .ok q' ∧ PsRel p' q') ∨
    (∃ e, List.foldlM (parseStep ft qt bn t1) p doc = .error e ∧
      List.foldlM (parseStep ft qt bn t2) q doc = .error e) := by
  intro doc
  induction doc with
  | nil =>
    intro p q h
    exact Or.inl ⟨p, q, rfl, rfl, h⟩
  | cons c cs ih =>
    intro p q h
    rcases parseStep_rel ft qt bn t1 t2 p q c h with
      ⟨p1, q1, hp1, hq1, h1⟩ | ⟨e, hep, heq⟩
    · have ep : List.foldlM (parseStep ft qt bn t1) p (c :: cs) =
          List.foldlM (parseStep ft qt bn t1) p1 cs := by
        show (parseStep ft qt bn t1 p c >>= fun b =>
          List.foldlM (parseStep ft qt bn t1) b cs) = _
        rw [hp1]
        rfl
      have eq2 : List.foldlM (parseStep ft qt bn t2) q (c :: cs) =
          List.foldlM (parseStep ft qt bn t2) q1 cs := by
        show (parseStep ft qt bn t2 q c >>= fun b =>
          List.foldlM (parseStep ft qt bn t2) b cs) = _
        rw [hq1]
        rfl
      rcases ih p1 q1 h1 with ⟨p', q', hp', hq', h'⟩ | ⟨e, hep', heq'⟩
      · exact Or.inl ⟨p', q', ep.trans hp', eq2.trans hq', h'⟩
      · exact Or.inr ⟨e, ep.trans hep', eq2.trans heq'⟩
    · refine Or.inr ⟨e, ?_, ?_⟩
      · show (parseStep ft qt bn t1 p c >>= fun b =>
          List.foldlM (parseStep ft qt bn t1) b cs) = _
        rw [hep]
        rfl
      · show (parseStep ft qt bn t2 q c >>= fun b =>
          List.foldlM (parseStep ft qt bn t2) b cs) = _
        rw [heq]
        rfl

/-- Claim C5: The result parser is deterministic across runs: for every
result document, flight type, query type and batch number, two
invocations of the parser on the same document — with the reference
accumulators reset to empty between runs, and regardless of the
wall-clock readings `t1`, `t2` of the two runs — produce identical
`LegRecord` lists, row counters, itinerary counters (and reference
accumulators), including identical failure on documents that raise. -/
theorem parse_results_deterministic (t1 t2 : Nat) (doc : List Element)
    (ft : FlightType) (qt : QueryType) (bn : Nat) :
    parse_results t1 doc ft qt bn emptyRefDicts =
      parse_results t2 doc ft qt bn emptyRefDicts := by
  unfold parse_results
  have h0 : PsRel
      { dfs := [], s_id := 0, row := 0, started_yet := false, state := none,
        dicts := emptyRefDicts }
      { dfs := [], s_id := 0, row := 0, started_yet := false, state := none,
        dicts := emptyRefDicts } :=
    ⟨rfl, rfl, rfl, rfl, rfl, trivial⟩
  rcases foldlM_rel ft qt bn t1 t2 doc _ _ h0 with
    ⟨p', q', hp', hq', h'⟩ | ⟨e, hep, heq⟩
  · rw [hp', hq']
    simp only [Except.map]
    rw [h'.dfs, h'.row, h'.sid, h'.dicts]
  · rw [hep, heq]

/-- A successful aggregation exposes the group's first and last rows: the
via candidate is the first leg's destination, the final destination the
last leg's. -/
theorem agg_solution_group_via_dest (g : List EnrichedRow) (a : AggRow)
    (h : agg_solution_group g = some a) :
    ∃ first last, g.head? = some first ∧ g.getLast? = some last ∧
      a.via_iata = first.destination ∧ a.destination_iata = last.destination := by
  cases g with
  | nil => simp [agg_solution_group] at h
  | cons first rest =>
    simp only [agg_solution_group] at h
    injection h with h2
    subst h2
    exact ⟨first, (first :: rest).getLast (List.cons_ne_nil first rest), rfl,
      List.getLast?_eq_getLast (first :: rest) (List.cons_ne_nil first rest),
      rfl, rfl⟩

/-- The origin-country merge preserves the via and final destination
codes of each surviving row. -/
theorem merge_origin_country_preserves (m : AggRow) (rows : List AggRow)
    (countries : List CountryRow) (h : m ∈ merge_origin_country rows countries) :
    ∃ x ∈ rows, m.via_iata = x.via_iata ∧ m.destination_iata = x.destination_iata := by
  unfold merge_origin_country at h
  obtain ⟨x, hx, hmem⟩ := List.mem_flatMap.mp h
  obtain ⟨c, hc, he⟩ := List.exists_of_mem_map hmem
  subst he
  exact ⟨x, hx, rfl, rfl⟩

/-- The destination-country merge preserves the via and final destination
codes of each surviving row. -/
theorem merge_destination_country_preserves (m : AggRow) (rows : List AggRow)
    (countries : List CountryRow) (h : m ∈ merge_destination_country rows countries) :
    ∃ x ∈ rows, m.via_iata = x.via_iata ∧ m.destination_iata = x.destination_iata := by
  unfold merge_destination_country at h
  obtain ⟨x, hx, hmem⟩ := List.mem_flatMap.mp h
  obtain ⟨c, hc, he⟩ := List.exists_of_mem_map hmem
  subst he
  exact ⟨x, hx, rfl, rfl⟩

/-- Claim C3: In the itinerary fold output, every row comes from a solution
group whose first leg's destination is the via candidate and whose last
leg's destination is the final destination; the via code is suppressed
(set to the null marker) exactly when the two coincide, is kept
unchanged otherwise, and a single-leg itinerary always has its via code
suppressed. -/
theorem via_code_suppressed_iff_direct (rows : List EnrichedRow)
    (countries : List CountryRow) (r : ItineraryRow)
    (hr : r ∈ transform_flight_structure rows countries) :
    ∃ g first last, g ∈ groupby_solution rows ∧
      g.head? = some first ∧ g.getLast? = some last ∧
      r.destination_iata = last.destination ∧
      (r.via_iata = none ↔ first.destination = last.destination) ∧
      (first.destination ≠ last.destination →
        r.via_iata = some first.destination) ∧
      (g.length = 1 → r.via_iata = none) := by
  unfold transform_flight_structure at hr
  obtain ⟨m, hm, he⟩ := List.exists_of_mem_map hr
  subst he
  obtain ⟨m1, hm1, hvia1, hdst1⟩ :=
    merge_destination_country_preserves m _ countries hm
  obtain ⟨a, ha, hvia2, hdst2⟩ :=
    merge_origin_country_preserves m1 _ countries hm1
  obtain ⟨g, hg, hagg⟩ := List.mem_filterMap.mp ha
  obtain ⟨first, last, hhead, hlast, hvia3, hdst3⟩ :=
    agg_solution_group_via_dest g a hagg
  have hvia : m.via_iata = first.destination := by rw [hvia1, hvia2, hvia3]
  have hdst : m.destination_iata = last.destination := by rw [hdst1, hdst2, hdst3]
  refine ⟨g, first, last, hg, hhead, hlast, hdst, ?_, ?_, ?_⟩
  · show (if m.via_iata = m.destination_iata then none
      else some m.via_iata) = none ↔ first.destination = last.destination
    rw [hvia, hdst]
    by_cases hd : first.destination = last.destination
    · simp [hd]
    · simp [hd]
  · intro hne
    show (if m.via_iata = m.destination_iata then none
      else some m.via_iata) = some first.destination
    rw [hvia, hdst, if_neg hne]
  · intro hlen
    have hfl : first = last := by
      cases g with
      | nil => simp at hhead
      | cons x xs =>
        cases xs with
        | nil =>
          injection hhead with hh
          rw [List.getLast?_singleton] at hlast
          injection hlast with hl
          rw [← hh, ← hl]
        | cons y ys => simp at hlen
    show (if m.via_iata = m.destination_iata then none
      else some m.via_iata) = none
    rw [hvia, hdst, hfl, if_pos rfl]

/-- Witness for C3: the theorem applied to the concrete two-leg itinerary,
whose single output row exists by computation. -/
theorem via_code_suppressed_iff_direct_witness :
    ∃ g first last, g ∈ groupby_solution [sampleLeg1, sampleLeg2] ∧
      g.head? = some first ∧ g.getLast? = some last ∧
      ((transform_flight_structure [sampleLeg1, sampleLeg2]
          sampleCountries).headD sampleItinerary).destination_iata =
        last.destination ∧
      (((transform_flight_structure [sampleLeg1, sampleLeg2]
          sampleCountries).headD sampleItinerary).via_iata = none ↔
        first.destination = last.destination) ∧
      (first.destination ≠ last.destination →
        ((transform_flight_structure [sampleLeg1, sampleLeg2]
          sampleCountries).headD sampleItinerary).via_iata =
          some first.destination) ∧
      (g.length = 1 →
        ((transform_flight_structure [sampleLeg1, sampleLeg2]
          sampleCountries).headD sampleItinerary).via_iata = none) :=
  via_code_suppressed_iff_direct [sampleLeg1, sampleLeg2] sampleCountries
    ((transform_flight_structure [sampleLeg1, sampleLeg2]
      sampleCountries).headD sampleItinerary) (by decide)

/-- Claim C4, counterexample: A leg table with exactly one row whose origin
is absent from the airport reference table for which the row count after
the origin join does **not** equal input − 1: the other row's origin code
occurs twice in the reference table, so the inner merge duplicates it
(2 rows from 2, not 1). -/
theorem origin_join_count_counterexample :
    (List.countP
        (fun x => decide (∀ a ∈ cexAirportsDup, x.origin ≠ some a.code))
        [cexLegA, cexLegZ] = 1) ∧
    (merge_origin_airport [cexLegA, cexLegZ] cexAirportsDup).length ≠
      [cexLegA, cexLegZ].length - 1 := by
  decide

/-- Unfolding equation for `merge_origin_airport` on a cons cell. -/
theorem merge_origin_airport_cons (x : LegRow) (xs : List LegRow)
    (airports : List AirportRef) :
    merge_origin_airport (x :: xs) airports =
      ((airports.filter (fun a => decide (x.origin = some a.code))).map (fun a =>
        { leg := x
          origin_airport_name := a.name
          origin_country := a.country
          origin_latitude := a.latitude
          origin_longitude := a.longitude })) ++ merge_origin_airport xs airports := by
  unfold merge_origin_airport
  exact List.flatMap_cons x xs _

/-- If every leg matches exactly one airport row, the origin join
preserves the row count. -/
theorem merge_origin_matched_length (airports : List AirportRef) :
    ∀ legs : List LegRow,
      (∀ x ∈ legs,
        airports.countP (fun a => decide (x.origin = some a.code)) = 1) →
      (merge_origin_airport legs airports).length = legs.length := by
  intro legs
  induction legs with
  | nil => intro _; rfl
  | cons x xs ih =>
    intro h
    rw [merge_origin_airport_cons, List.length_append, List.length_map,
      ← List.countP_eq_length_filter, h x (List.mem_cons_self x xs),
      ih (fun y hy => h y (List.mem_cons_of_mem x hy)), List.length_cons]
    omega

/-- With exactly one unmatched leg and every matched leg matching exactly
one airport row, the origin join loses exactly one row. -/
theorem merge_origin_one_unmatched_length (airports : List AirportRef) :
    ∀ legs : List LegRow,
      legs.countP (fun x => decide (∀ a ∈ airports, x.origin ≠ some a.code)) = 1 →
      (∀ x ∈ legs, ¬(∀ a ∈ airports, x.origin ≠ some a.code) →
        airports.countP (fun a => decide (x.origin = some a.code)) = 1) →
      (merge_origin_airport legs airports).length = legs.length - 1 := by
  intro legs
  induction legs with
  | nil =>
    intro h1 _
    simp at h1
  | cons x xs ih =>
    intro h1 h2
    rw [List.countP_cons] at h1
    by_cases hx : ∀ a ∈ airports, x.origin ≠ some a.code
    · have hpx : decide (∀ a ∈ airports, x.origin ≠ some a.code) = true :=
        decide_eq_true hx
      rw [hpx, if_pos rfl] at h1
      have hz : xs.countP
          (fun x => decide (∀ a ∈ airports, x.origin ≠ some a.code)) = 0 := by
        omega
      have hall : ∀ y ∈ xs,
          airports.countP (fun a => decide (y.origin = some a.code)) = 1 := by
        intro y hy
        apply h2 y (List.mem_cons_of_mem x hy)
        have hzz := List.countP_eq_zero.mp hz y hy
        simpa using hzz
      have hfil : airports.filter (fun a => decide (x.origin = some a.code)) = [] :=
        List.filter_eq_nil_iff.mpr (fun a ha => by simpa using hx a ha)
      rw [merge_origin_airport_cons, List.length_append, List.length_map, hfil,
        merge_origin_matched_length airports xs hall, List.length_cons]
      simp
    · have hpx : decide (∀ a ∈ airports, x.origin ≠ some a.code) = false :=
        decide_eq_false hx
      rw [hpx, if_neg Bool.false_ne_true] at h1
      have h1 : xs.countP
          (fun x => decide (∀ a ∈ airports, x.origin ≠ some a.code)) = 1 := by
        omega
      have hlen1 : 1 ≤ xs.length := h1 ▸ List.countP_le_length _
      rw [merge_origin_airport_cons, List.length_append, List.length_map,
        ← List.countP_eq_length_filter, h2 x (List.mem_cons_self x xs) hx,
        ih h1 (fun y hy hm => h2 y (List.mem_cons_of_mem x hy) hm),
        List.length_cons]
      omega

/-- Claim C4, amended: Every enrichment join (origin airport, destination
airport, carrier) is an inner join: a leg row whose join key is absent
from the corresponding reference table contributes no row to the result
(it is dropped). Moreover, for a leg table containing exactly one row
whose origin code does not occur in the airport reference table — and
whose other rows each match exactly one airport row (e.g. reference
codes unique) — the row count after the origin join equals the input
count minus 1. (Without the exactly-once condition the count clause
fails: duplicated reference codes duplicate matched rows.) -/
theorem enrichment_inner_joins_drop_and_count :
    (∀ (legs1 legs2 : List LegRow) (airports : List AirportRef) (r : LegRow),
      (∀ a ∈ airports, r.origin ≠ some a.code) →
      merge_origin_airport (legs1 ++ r :: legs2) airports =
        merge_origin_airport legs1 airports ++ merge_origin_airport legs2 airports) ∧
    (∀ (rs1 rs2 : List LegRowO) (airports : List AirportRef) (r : LegRowO),
      (∀ a ∈ airports, r.leg.destination ≠ some a.code) →
      merge_destination_airport (rs1 ++ r :: rs2) airports =
        merge_destination_airport rs1 airports ++
          merge_destination_airport rs2 airports) ∧
    (∀ (rs1 rs2 : List LegRowOD) (carriers : List CarrierRef) (r : LegRowOD),
      (∀ c ∈ carriers, r.legO.leg.carrier ≠ some c.code) →
      merge_carrier (rs1 ++ r :: rs2) carriers =
        merge_carrier rs1 carriers ++ merge_carrier rs2 carriers) ∧
    (∀ (legs : List LegRow) (airports : List AirportRef),
      legs.countP (fun x => decide (∀ a ∈ airports, x.origin ≠ some a.code)) = 1 →
      (∀ x ∈ legs, ¬(∀ a ∈ airports, x.origin ≠ some a.code) →
        airports.countP (fun a => decide (x.origin = some a.code)) = 1) →
      (merge_origin_airport legs airports).length = legs.length - 1) := by
  refine ⟨?_, ?_, ?_, ?_⟩
  · intro l1 l2 airports r h
    unfold merge_origin_airport
    rw [List.flatMap_append, List.flatMap_cons]
    have hfil : airports.filter (fun a => decide (r.origin = some a.code)) = [] :=
      List.filter_eq_nil_iff.mpr (fun a ha => by simpa using h a ha)
    rw [hfil]
    simp
  · intro l1 l2 airports r h
    unfold merge_destination_airport
    rw [List.flatMap_append, List.flatMap_cons]
    have hfil : airports.filter
        (fun a => decide (r.leg.destination = some a.code)) = [] :=
      List.filter_eq_nil_iff.mpr (fun a ha => by simpa using h a ha)
    rw [hfil]
    simp
  · intro l1 l2 carriers r h
    unfold merge_carrier
    rw [List.flatMap_append, List.flatMap_cons]
    have hfil : carriers.filter
        (fun c => decide (r.legO.leg.carrier = some c.code)) = [] :=
      List.filter_eq_nil_iff.mpr (fun c hc => by simpa using h c hc)
    rw [hfil]
    simp
  · intro legs airports
    exact merge_origin_one_unmatched_length airports legs

/-- Witness for the amended C4: the unmatched row `ZZZ` is dropped, and
on a unique-code reference table the origin join loses exactly one of
two rows. -/
theorem enrichment_inner_joins_drop_and_count_witness :
    (merge_origin_airport ([] ++ cexLegZ :: []) cexAirportsU =
      merge_origin_airport [] cexAirportsU ++
        merge_origin_airport [] cexAirportsU) ∧
    (merge_origin_airport [cexLegA, cexLegZ] cexAirportsU).length =
      [cexLegA, cexLegZ].length - 1 :=
  ⟨enrichment_inner_joins_drop_and_count.1 [] [] cexAirportsU cexLegZ (by decide),
   enrichment_inner_joins_drop_and_count.2.2.2 [cexLegA, cexLegZ] cexAirportsU
     (by decide) (by decide)⟩

end FlightAnalysis
